import Mathlib

/-!
# Verification of the youtube-backend channel-age service

Shallow embedding of the two observed variants of `index.js`:

* namespace `YB` — `src/youtube-backend.js` (POST-only variant: trims the
  input, caches by the *resolved* channel id, marks responses with
  `is_cached`, wraps the handle lookup in try/catch).
* namespace `V0` — `src/unnamed/part_000` (GET+POST variant: percent-decodes
  the input, caches by the *raw* input string, adds a `description` field,
  does **not** wrap the handle lookup in try/catch).

Modelling conventions:

* JS strings are modelled as `List Char` (`JStr`); the display-only output
  strings (`account_age`, `verification_status`, …) are Lean `String`s.
* Instants (`Date.now()`, parsed `publishedAt` timestamps) are modelled as
  `Int` milliseconds since the Unix epoch; the server clock is taken to be
  UTC, so `getFullYear`/`getMonth`/`getDate` are derived from the civil
  (proleptic Gregorian) calendar on the UTC day number.
* The two upstream calls are oracles passed explicitly: the handle lookup
  (`forHandle`) as `JStr → Except Unit (List JStr)` (`Except.error` = the
  fetch or the JSON parse threw) and the metadata fetch as
  `JStr → FetchResult`.
* Resolution functions return, next to their result, the number of handle
  lookup calls they performed.
-/

/-- JS strings, modelled at character level. -/
abbrev JStr := List Char

/-- Whitespace for the purposes of JS `trim` / `\s` (ASCII whitespace plus
the common Unicode space characters JS recognises).  All inputs handled in
the theorems below are ASCII. -/
def isWs (c : Char) : Bool :=
  let n := c.toNat
  n = 32 || n = 9 || n = 10 || n = 11 || n = 12 || n = 13 ||
  n = 0xA0 || n = 0xFEFF || (0x2000 ≤ n && n ≤ 0x200A) ||
  n = 0x1680 || n = 0x2028 || n = 0x2029 || n = 0x202F || n = 0x205F || n = 0x3000

/-- The character class `[0-9a-zA-Z_-]` of the canonical-id regex. -/
def isIdChar (c : Char) : Bool :=
  let n := c.toNat
  (48 ≤ n && n ≤ 57) || (97 ≤ n && n ≤ 122) || (65 ≤ n && n ≤ 90) || n = 95 || n = 45

/-- `[^\s\/]` — the character class of the handle-capture regexes. -/
def isHandleChar (c : Char) : Bool := !isWs c && c != '/'

/-- JS `String.prototype.trim`. -/
def jsTrim (l : JStr) : JStr :=
  ((l.dropWhile isWs).reverse.dropWhile isWs).reverse

/-- `/^UC[0-9a-zA-Z_-]{22}$/.test input` — the canonical channel-id shape
(both variants use the identical, case-sensitive regex). -/
def isCanonicalId (l : JStr) : Bool :=
  l.length = 24 && l.take 2 = ['U', 'C'] && (l.drop 2).all isIdChar

/-- ASCII lowercasing, for the `/i` regex flag. -/
def lcAscii (c : Char) : Char :=
  if c.toNat ≥ 65 && c.toNat ≤ 90 then Char.ofNat (c.toNat + 32) else c

/-- `s` starts with `pat`, compared case-insensitively (ASCII). -/
def matchesCI : JStr → JStr → Bool
  | [], _ => true
  | _ :: _, [] => false
  | p :: ps, c :: cs => lcAscii p == lcAscii c && matchesCI ps cs

/-- Attempt of `/youtube\.com\/channel\/(UC[0-9a-zA-Z_-]{22})/i` at the head
of the list: the literal prefix (case-insensitive), then `UC`
(case-insensitive, because the whole regex carries `/i`), then 22 id
characters; the capture is the 24 characters in their original case. -/
def chanAt (s : JStr) : Option JStr :=
  if matchesCI "youtube.com/channel/".toList s then
    let rest := s.drop 20
    match rest with
    | u :: c :: tl =>
      if lcAscii u == 'u' && lcAscii c == 'c' && (tl.take 22).length = 22
          && (tl.take 22).all isIdChar then
        some (u :: c :: tl.take 22)
      else none
    | _ => none
  else none

/-- Leftmost match of the `/channel/` regex (JS `String.prototype.match`
scans positions left to right). -/
def findChan : JStr → Option JStr
  | [] => none
  | c :: cs => (chanAt (c :: cs)).orElse fun _ => findChan cs

/-- `@?([^\s\/]+)` attempted at the head of the list (no `youtube.com/`
prefix consumed).  When the head is `@` and the next character is a handle
character, `@?` consumes the `@` and the capture starts after it; when the
head is `@` but nothing capturable follows, the engine backtracks and the
`@` itself is the (one-character) capture. -/
def afterOptAt (s : JStr) : Option JStr :=
  match s with
  | [] => none
  | c :: cs =>
    if isHandleChar c then
      if c = '@' then
        match cs with
        | d :: _ => if isHandleChar d then some (cs.takeWhile isHandleChar)
                    else some ['@']
        | [] => some ['@']
      else some ((c :: cs).takeWhile isHandleChar)
    else none

/-- Attempt of `/(?:youtube\.com\/)?@?([^\s\/]+)/i` at the head of the list:
the optional prefix is tried greedily first; if the tail after the prefix
cannot satisfy `@?[^\s\/]+` the engine backtracks and retries without
consuming the prefix. -/
def handleAt (s : JStr) : Option JStr :=
  if matchesCI "youtube.com/".toList s then
    match afterOptAt (s.drop 12) with
    | some cap => some cap
    | none => afterOptAt s
  else afterOptAt s

/-- Leftmost match of the loose handle regex of `youtube-backend.js`. -/
def findHandle : JStr → Option JStr
  | [] => none
  | c :: cs => (handleAt (c :: cs)).orElse fun _ => findHandle cs

/-- `.replace(/^@/, '')` — strip a single leading `@`. -/
def stripAt (l : JStr) : JStr :=
  match l with
  | '@' :: r => r
  | _ => l

/-- Attempt of `/youtube\.com\/(?:c\/|@)([^\s\/]+)/i` (the part_000 custom
URL regex) at the head of the list: mandatory prefix, then the alternation
`c/` | `@` (in that order), then a non-empty handle-character run. -/
def customAt (s : JStr) : Option JStr :=
  if matchesCI "youtube.com/".toList s then
    let rest := s.drop 12
    let alt1 : Option JStr :=
      match rest with
      | c :: '/' :: r =>
        if lcAscii c == 'c' then
          let h := r.takeWhile isHandleChar
          if h = [] then none else some h
        else none
      | _ => none
    match alt1 with
    | some h => some h
    | none =>
      match rest with
      | '@' :: r =>
        let h := r.takeWhile isHandleChar
        if h = [] then none else some h
      | _ => none
  else none

/-- Leftmost match of the part_000 custom-URL regex. -/
def findCustom : JStr → Option JStr
  | [] => none
  | c :: cs => (customAt (c :: cs)).orElse fun _ => findCustom cs

/-- `/^@([^\s\/]+)/` — the anchored bare-handle regex of part_000. -/
def bareHandle (s : JStr) : Option JStr :=
  match s with
  | '@' :: r =>
    let h := r.takeWhile isHandleChar
    if h = [] then none else some h
  | _ => none

/-- `decodedInput.match(customRe) || decodedInput.match(bareRe)` of
part_000: the custom-URL regex first, then the anchored bare handle. -/
def customName (s : JStr) : Option JStr :=
  (findCustom s).orElse fun _ => bareHandle s

/-! ### decodeURIComponent -/

/-- Value of a hex digit. -/
def hexVal (c : Char) : Option Nat :=
  let n := c.toNat
  if 48 ≤ n && n ≤ 57 then some (n - 48)
  else if 97 ≤ n && n ≤ 102 then some (n - 87)
  else if 65 ≤ n && n ≤ 70 then some (n - 55)
  else none

/-- A UTF-8 continuation byte written as `%XX` at the head of the list:
returns the byte value (required to lie in `[0x80, 0xBF]`) and the rest. -/
def contAt : JStr → Option (Nat × JStr)
  | '%' :: h1 :: h2 :: rest =>
    match hexVal h1, hexVal h2 with
    | some a, some b =>
      let v := 16 * a + b
      if 0x80 ≤ v && v ≤ 0xBF then some (v, rest) else none
    | _, _ => none
  | _ => none

/-- Fuel-driven body of `decodeURIComponent`: ordinary characters pass
through; `%XX` escape sequences are decoded as UTF-8 byte sequences (each
continuation byte must itself be a `%XX` escape), with the standard
validity constraints (no overlong forms, no surrogates, max U+10FFFF).
Any violation models the `URIError` the JS builtin throws.  Each step
consumes at least one character, so fuel = input length never runs out. -/
def decodeUriGo : Nat → JStr → Option JStr
  | _, [] => some []
  | 0, _ :: _ => none
  | fuel + 1, c :: rest =>
    if c = '%' then
      match rest with
      | h1 :: h2 :: rest1 =>
        match hexVal h1, hexVal h2 with
        | some a, some b =>
          let b1 := 16 * a + b
          if b1 < 0x80 then
            (decodeUriGo fuel rest1).map (Char.ofNat b1 :: ·)
          else if 0xC2 ≤ b1 && b1 ≤ 0xDF then
            match contAt rest1 with
            | some (b2, rest2) =>
              (decodeUriGo fuel rest2).map
                (Char.ofNat ((b1 - 0xC0) * 64 + (b2 - 0x80)) :: ·)
            | none => none
          else if 0xE0 ≤ b1 && b1 ≤ 0xEF then
            match contAt rest1 with
            | some (b2, rest2) =>
              if (b1 = 0xE0 && b2 < 0xA0) || (b1 = 0xED && 0xA0 ≤ b2) then none
              else
                match contAt rest2 with
                | some (b3, rest3) =>
                  (decodeUriGo fuel rest3).map
                    (Char.ofNat ((b1 - 0xE0) * 4096 + (b2 - 0x80) * 64 + (b3 - 0x80)) :: ·)
                | none => none
            | none => none
          else if 0xF0 ≤ b1 && b1 ≤ 0xF4 then
            match contAt rest1 with
            | some (b2, rest2) =>
              if (b1 = 0xF0 && b2 < 0x90) || (b1 = 0xF4 && 0x90 ≤ b2) then none
              else
                match contAt rest2 with
                | some (b3, rest3) =>
                  match contAt rest3 with
                  | some (b4, rest4) =>
                    (decodeUriGo fuel rest4).map
                      (Char.ofNat ((b1 - 0xF0) * 262144 + (b2 - 0x80) * 4096
                        + (b3 - 0x80) * 64 + (b4 - 0x80)) :: ·)
                  | none => none
                | none => none
            | none => none
          else none
        | _, _ => none
      | _ => none
    else
      (decodeUriGo fuel rest).map (c :: ·)

/-- JS `decodeURIComponent`: `none` models a thrown `URIError`. -/
def decodeURIComponent (l : JStr) : Option JStr := decodeUriGo l.length l

/-! ### parseInt and falsiness helpers -/

/-- Decimal value of a digit run. -/
def digitsVal (l : JStr) : Nat := l.foldl (fun a c => a * 10 + (c.toNat - 48)) 0

def isDigitChar (c : Char) : Bool := 48 ≤ c.toNat && c.toNat ≤ 57

/-- JS `parseInt(s)` restricted to decimal notation (the upstream API only
produces decimal digit strings): leading whitespace is skipped, an optional
sign is honoured, the longest leading digit run is parsed; `none` models
`NaN`. -/
def jsParseInt (s : JStr) : Option Int :=
  let t := s.dropWhile isWs
  if t.head? = some '-' then
    let ds := (t.drop 1).takeWhile isDigitChar
    if ds = [] then none else some (-(digitsVal ds : Int))
  else if t.head? = some '+' then
    let ds := (t.drop 1).takeWhile isDigitChar
    if ds = [] then none else some (digitsVal ds)
  else
    let ds := t.takeWhile isDigitChar
    if ds = [] then none else some (digitsVal ds)

/-- `parseInt(channel.statistics.subscriberCount || 0)`: an absent or empty
(falsy) count falls back to the number `0` (which `parseInt` coerces to
`"0"` and parses as `0`); otherwise the string is parsed. -/
def parseSubscribers (sc : Option JStr) : Option Int :=
  match sc with
  | none => some 0
  | some s => if s = [] then some 0 else jsParseInt s

/-- `x || 'N/A'`-style defaulting: an absent or empty (falsy) string is
replaced by the default. -/
def jsOr (o : Option JStr) (d : JStr) : JStr :=
  match o with
  | none => d
  | some s => if s = [] then d else s

/-! ### The civil (proleptic Gregorian) calendar on epoch milliseconds

`new Date(x)` stores an epoch-millisecond value; `getFullYear`, `getMonth`
and `getDate` read the civil calendar fields.  The server clock is modelled
as UTC. -/

def msPerDay : Int := 1000 * 60 * 60 * 24

/-- Day number (days since 1970-01-01, floored — dates before the epoch are
negative). -/
def epochDay (ms : Int) : Int := Int.fdiv ms msPerDay

/-- Civil date from a day number (year, month `1..12`, day `1..31`) —
standard era-based Gregorian conversion. -/
def civilFromDays (z : Int) : Int × Nat × Nat :=
  let z' := z + 719468
  let era := Int.fdiv z' 146097
  let doe := (z' - era * 146097).toNat
  let yoe := (doe - doe / 1460 + doe / 36524 - doe / 146096) / 365
  let doy := doe - (365 * yoe + yoe / 4 - yoe / 100)
  let mp := (5 * doy + 2) / 153
  let d := doy - (153 * mp + 2) / 5 + 1
  let m := if mp < 10 then mp + 3 else mp - 9
  let y := (era * 400 + yoe : Int)
  (if m ≤ 2 then y + 1 else y, m, d)

/-- Day number of a civil date (month `1..12`, day `1..31`). -/
def daysFromCivil (y : Int) (m d : Nat) : Int :=
  let y' := if m ≤ 2 then y - 1 else y
  let era := Int.fdiv y' 400
  let yoe := (y' - era * 400).toNat
  let mp := if 2 < m then m - 3 else m + 9
  let doy := (153 * mp + 2) / 5 + d - 1
  let doe := yoe * 365 + yoe / 4 - yoe / 100 + doy
  era * 146097 + (doe : Int) - 719468

/-- Epoch milliseconds of midnight UTC of a civil date (a convenience for
building concrete instants in theorems). -/
def utcMs (y : Int) (m d : Nat) : Int := daysFromCivil y m d * msPerDay

/-- `Date.prototype.getFullYear` (UTC model). -/
def getFullYear (ms : Int) : Int := (civilFromDays (epochDay ms)).1

/-- `Date.prototype.getMonth` — zero-based month (UTC model). -/
def getMonth (ms : Int) : Nat := (civilFromDays (epochDay ms)).2.1 - 1

/-- `Date.prototype.getDate` — one-based day of month (UTC model). -/
def getDate (ms : Int) : Nat := (civilFromDays (epochDay ms)).2.2

/-- `new Date(year, monthIndex, 0).getDate()` — day `0` of the zero-based
month `monthIndex` is the last day of the preceding month, so this is the
number of days in the calendar month just before `monthIndex` of `year`
(for `monthIndex = 0` it is December 31 of the previous year). -/
def prevMonthDays (y : Int) (monthIndex : Nat) : Nat :=
  match monthIndex with
  | 0 => 31
  | 1 => 31
  | 2 => if (y % 4 = 0 && y % 100 ≠ 0) || y % 400 = 0 then 29 else 28
  | 3 => 31
  | 4 => 30
  | 5 => 31
  | 6 => 30
  | 7 => 31
  | 8 => 31
  | 9 => 30
  | 10 => 31
  | _ => 30

/-! ### calculateChannelAge (identical in both variants) -/

/-- The calendar-difference triple `(years, months, days)` computed by
`calculateChannelAge` before formatting: raw field-wise subtraction, then a
day borrow from the month preceding "now" (via `new Date(y, m, 0)`), then a
12-month borrow. -/
structure CalDiff where
  years : Int
  months : Int
  days : Int
deriving DecidableEq, Repr

def calendarDiff (nowMs createdMs : Int) : CalDiff :=
  let years0 : Int := getFullYear nowMs - getFullYear createdMs
  let months0 : Int := (getMonth nowMs : Int) - (getMonth createdMs : Int)
  let days0 : Int := (getDate nowMs : Int) - (getDate createdMs : Int)
  let months1 := if days0 < 0 then months0 - 1 else months0
  let days1 := if days0 < 0 then days0 + (prevMonthDays (getFullYear nowMs) (getMonth nowMs) : Int) else days0
  let years2 := if months1 < 0 then years0 - 1 else years0
  let months2 := if months1 < 0 then months1 + 12 else months1
  { years := years2, months := months2, days := days1 }

structure AgeResult where
  accountAge : String
  age_days : Int
deriving DecidableEq, Repr

/-- `calculateChannelAge(creationDate)` with the impure `new Date()` made
explicit as the `nowMs` argument and the parsed `creationDate` instant as
`createdMs`. -/
def calculateChannelAge (nowMs createdMs : Int) : AgeResult :=
  let cd := calendarDiff nowMs createdMs
  let totalDays := Int.fdiv (nowMs - createdMs) msPerDay
  { accountAge := s!"{cd.years} years, {cd.months} months, {cd.days} days",
    age_days := totalDays }

/-! ### The in-memory cache (`const cache = new Map()`), generic in the
payload type (the two variants store slightly different response shapes). -/

def CACHE_TTL : Int := 24 * 60 * 60 * 1000

structure CacheEntry (α : Type) where
  data : α
  timestamp : Int
deriving DecidableEq, Repr

/-- The `Map` modelled as an association list (no duplicate keys are ever
introduced by `setEntry`). -/
def CacheMap (α : Type) := List (JStr × CacheEntry α)

instance {α : Type} [DecidableEq α] : DecidableEq (CacheMap α) :=
  inferInstanceAs (DecidableEq (List _))

/-- `cache.get(key)`. -/
def getEntry {α : Type} (c : CacheMap α) (k : JStr) : Option (CacheEntry α) :=
  match c.find? (fun p => p.1 = k) with
  | some p => some p.2
  | none => none

/-- `cache.set(key, entry)` — unconditional overwrite. -/
def setEntry {α : Type} (c : CacheMap α) (k : JStr) (e : CacheEntry α) : CacheMap α :=
  (k, e) :: c.filter (fun p => p.1 ≠ k)

/-- The inline freshness test `cached && (Date.now() - cached.timestamp) <
CACHE_TTL`: the cached payload when present and fresh, otherwise nothing
(no eviction happens on read). -/
def cacheLookup {α : Type} (now : Int) (c : CacheMap α) (k : JStr) : Option α :=
  match getEntry c k with
  | some e => if now - e.timestamp < CACHE_TTL then some e.data else none
  | none => none

/-! ### Upstream payloads -/

/-- One item of the metadata-by-id upstream response
(`{id, snippet: {title, publishedAt, thumbnails, country, description},
statistics: {subscriberCount}}`).  `publishedAt` is modelled as the instant
(epoch ms) the ISO-8601 string denotes; optional fields are `none` when
absent from the payload. -/
structure UpstreamChannel where
  id : JStr
  publishedAt : Int
  title : Option JStr
  thumbnailUrl : Option JStr
  country : Option JStr
  description : Option JStr
  subscriberCount : Option JStr
deriving DecidableEq, Repr

/-- Outcome of the metadata fetch:
`exn` — `fetch` or `response.json()` threw (caught by the handler's try);
`httpErr s` — `response.ok` was false, HTTP status `s`;
`ok items` — parsed body with its `items` list (absent `items` ≡ `[]`). -/
inductive FetchResult where
  | exn : FetchResult
  | httpErr : Nat → FetchResult
  | ok : List UpstreamChannel → FetchResult

/-- Handle-lookup oracle for the `forHandle` call: `Except.error` models a
thrown transport/parse exception, `Except.ok ids` the `items` id list of a
successful response (absent `items` ≡ `[]`). -/
abbrev HandleLookup := JStr → Except Unit (List JStr)

/-- `subscriberCount >= 100000` on the `parseInt` result (`NaN >= x` is
false in JS). -/
def subsAtLeast100k (subs : Option Int) : Bool :=
  match subs with
  | some n => decide (100000 ≤ n)
  | none => false

/-! ## Variant `YB` — `src/youtube-backend.js` -/

namespace YB

/-- `extractChannelId` of `youtube-backend.js`.  Returns the resolved id
(or `none`) together with the number of handle-lookup calls made.  The
falsy-input guard fires on the empty string; otherwise the input is
trimmed, tested against the canonical-id regex, then the `/channel/` URL
regex, then the loose handle regex; the handle branch strips a leading `@`,
performs one lookup and catches any thrown error (returning `null`). -/
def extractChannelId (lookup : HandleLookup) (input : JStr) : Option JStr × Nat :=
  if input = [] then (none, 0)
  else
    let t := jsTrim input
    if isCanonicalId t then (some t, 0)
    else
      match findChan t with
      | some cap => (some cap, 0)
      | none =>
        match findHandle t with
        | none => (none, 0)
        | some cap =>
          let handle := stripAt cap
          match lookup handle with
          | .error _ => (none, 1)
          | .ok [] => (none, 1)
          | .ok (id :: _) => (some id, 1)

/-- The normalized response object built on a successful fetch. -/
structure ResponseData where
  channel_id : JStr
  channel_name : JStr
  profile_image_url : JStr
  creation_date : Int
  account_age : String
  age_days : Int
  country : JStr
  verification_status : String
  accuracy : String
  subscribers : Option Int
deriving DecidableEq, Repr

/-- Normalization of the first upstream item (`responseData` in the
source): fallbacks `'N/A'` for name and country,
`https://via.placeholder.com/50` for the avatar, `parseInt(... || 0)` for
subscribers, `Verified` iff the parsed count is `>= 100000`. -/
def normalize (nowMs : Int) (ch : UpstreamChannel) : ResponseData :=
  let age := calculateChannelAge nowMs ch.publishedAt
  let subs := parseSubscribers ch.subscriberCount
  { channel_id := ch.id
    channel_name := jsOr ch.title "N/A".toList
    profile_image_url := jsOr ch.thumbnailUrl "https://via.placeholder.com/50".toList
    creation_date := ch.publishedAt
    account_age := age.accountAge
    age_days := age.age_days
    country := jsOr ch.country "N/A".toList
    verification_status :=
      if subsAtLeast100k subs then "Verified" else "Not Verified"
    accuracy := "Exact"
    subscribers := subs }

/-- HTTP responses the POST handler can produce: a JSON success body
(`{...responseData, is_cached}`) or `res.status(s).json({error})`. -/
inductive Resp where
  | ok : ResponseData → Bool → Resp
  | err : Nat → String → Resp
deriving DecidableEq

/-- The ambient state a request runs against. -/
structure Env where
  now : Int
  lookup : HandleLookup
  meta : JStr → FetchResult

def Cache := CacheMap ResponseData

instance : DecidableEq Cache := inferInstanceAs (DecidableEq (CacheMap _))

/-- `app.post('/api/youtube-age')` of `youtube-backend.js`: falsy-body
guard, resolve, cache check keyed by the *resolved* id, fetch, normalize,
cache write, respond.  Returns the response and the cache left behind. -/
def handlePost (env : Env) (cache : Cache) (body : Option JStr) : Resp × Cache :=
  match body with
  | none => (.err 400 "Channel URL or ID is required", cache)
  | some input =>
    if input = [] then (.err 400 "Channel URL or ID is required", cache)
    else
      match (extractChannelId env.lookup input).1 with
      | none => (.err 400 "Invalid channel URL or ID", cache)
      | some channelId =>
        match cacheLookup env.now cache channelId with
        | some data => (.ok data true, cache)
        | none =>
          match env.meta channelId with
          | .exn => (.err 500 "Could not fetch channel data", cache)
          | .httpErr status => (.err status "Failed to fetch channel data", cache)
          | .ok [] => (.err 404 "Channel not found", cache)
          | .ok (ch :: _) =>
            let responseData := normalize env.now ch
            (.ok responseData false,
             setEntry cache channelId ⟨responseData, env.now⟩)

end YB

/-! ## Variant `V0` — `src/unnamed/part_000` -/

namespace V0

/-- `extractChannelId` of part_000.  The input is first percent-decoded
(`decodeURIComponent` inside try/catch — a `URIError` yields `null`); the
decoded input is tested against the canonical-id regex, the `/channel/` URL
regex, then the custom-URL / bare-`@` handle regexes.  The handle branch's
fetch is **not** wrapped in try/catch, so a thrown transport/parse error
propagates out of the function: that is the `Except.error` result.  The
second component counts handle-lookup calls. -/
def resolveDecoded (lookup : HandleLookup) (decodedInput : JStr) :
    Except Unit (Option JStr) × Nat :=
  if isCanonicalId decodedInput then (.ok (some decodedInput), 0)
  else
    match findChan decodedInput with
    | some cap => (.ok (some cap), 0)
    | none =>
      match customName decodedInput with
      | none => (.ok none, 0)
      | some name =>
        match lookup name with
        | .error _ => (.error (), 1)
        | .ok [] => (.ok none, 1)
        | .ok (id :: _) => (.ok (some id), 1)

/-- `extractChannelId` of part_000, continued: the decode step happens
before any pattern matching, a decode failure short-circuits to `null`. -/
def extractChannelId (lookup : HandleLookup) (input : JStr) :
    Except Unit (Option JStr) × Nat :=
  match decodeURIComponent input with
  | none => (.ok none, 0)
  | some decodedInput => resolveDecoded lookup decodedInput

/-- part_000's response object: the `YB` fields plus `description`
(defaulted to `'N/A'`), and no `is_cached` marker. -/
structure ResponseData extends YB.ResponseData where
  description : JStr
deriving DecidableEq

/-- `responseData` of part_000's `handleChannelRequest`. -/
def normalize (nowMs : Int) (ch : UpstreamChannel) : ResponseData :=
  { YB.normalize nowMs ch with description := jsOr ch.description "N/A".toList }

/-- Outcomes of `handleChannelRequest`: a plain JSON success body, an error
status, or an exception escaping the (un-caught) `await extractChannelId`
call — the route handlers `await` it without try/catch, so the promise
rejection is unhandled and no response is sent. -/
inductive Resp where
  | ok : ResponseData → Resp
  | err : Nat → String → Resp
  | unhandledRejection : Resp
deriving DecidableEq

structure Env where
  now : Int
  lookup : HandleLookup
  meta : JStr → FetchResult

def Cache := CacheMap ResponseData

instance : DecidableEq Cache := inferInstanceAs (DecidableEq (CacheMap _))

/-- `handleChannelRequest(channelInput, res)` of part_000: cache check
keyed by the *raw* input string first, then resolution (whose exception
propagates), then fetch, normalize, cache write keyed by the raw input. -/
def handleChannelRequest (env : Env) (cache : Cache) (channelInput : JStr) :
    Resp × Cache :=
  match cacheLookup env.now cache channelInput with
  | some data => (.ok data, cache)
  | none =>
    match (extractChannelId env.lookup channelInput).1 with
    | .error _ => (.unhandledRejection, cache)
    | .ok none => (.err 400 "Invalid channel URL, handle, or ID", cache)
    | .ok (some channelId) =>
      match env.meta channelId with
      | .exn => (.err 500 "Could not fetch channel data", cache)
      | .httpErr status =>
        (.err status s!"Failed to fetch channel data: HTTP {status}", cache)
      | .ok [] => (.err 404 "Channel not found", cache)
      | .ok (ch :: _) =>
        let responseData := normalize env.now ch
        (.ok responseData,
         setEntry cache channelInput ⟨responseData, env.now⟩)

/-- `app.post('/api/youtube-age')` of part_000: the falsy-body guard, then
`handleChannelRequest`. -/
def handlePost (env : Env) (cache : Cache) (body : Option JStr) : Resp × Cache :=
  match body with
  | none => (.err 400 "Channel URL, handle, or ID is required", cache)
  | some channel =>
    if channel = [] then (.err 400 "Channel URL, handle, or ID is required", cache)
    else handleChannelRequest env cache channel

end V0

/-! ## Helper lemmas -/

theorem dropWhile_eq_self_of {α : Type} (p : α → Bool) :
    ∀ l : List α, (∀ c ∈ l, p c = false) → l.dropWhile p = l
  | [], _ => rfl
  | c :: cs, h => by
    simp only [List.dropWhile_cons, h c (List.mem_cons_self c cs)]
    simp

theorem jsTrim_eq_self {l : JStr} (h : ∀ c ∈ l, isWs c = false) : jsTrim l = l := by
  unfold jsTrim
  rw [dropWhile_eq_self_of isWs l h,
      dropWhile_eq_self_of isWs l.reverse (fun c hc => h c (List.mem_reverse.mp hc)),
      List.reverse_reverse]

theorem idChar_not_ws {c : Char} (h : isIdChar c = true) : isWs c = false := by
  simp only [isIdChar, Bool.or_eq_true, Bool.and_eq_true, decide_eq_true_eq] at h
  simp only [isWs, Bool.or_eq_false_iff, Bool.and_eq_false_iff, decide_eq_false_iff_not]
  omega

theorem idChar_ne_pct {c : Char} (h : isIdChar c = true) : c ≠ '%' := by
  intro e
  subst e
  simp [isIdChar] at h

theorem canonical_chars {l : JStr} (h : isCanonicalId l = true) :
    ∀ c ∈ l, c = 'U' ∨ c = 'C' ∨ isIdChar c = true := by
  simp only [isCanonicalId, Bool.and_eq_true, decide_eq_true_eq, List.all_eq_true] at h
  intro c hc
  rw [← List.take_append_drop 2 l] at hc
  rcases List.mem_append.mp hc with h1 | h1
  · rw [h.1.2] at h1
    simp only [List.mem_cons, List.not_mem_nil, or_false] at h1
    rcases h1 with h1 | h1
    · exact Or.inl h1
    · exact Or.inr (Or.inl h1)
  · exact Or.inr (Or.inr (h.2 c h1))

theorem canonical_not_ws {l : JStr} (h : isCanonicalId l = true) :
    ∀ c ∈ l, isWs c = false := by
  intro c hc
  rcases canonical_chars h c hc with h1 | h1 | h1
  · subst h1; rfl
  · subst h1; rfl
  · exact idChar_not_ws h1

theorem canonical_ne_pct {l : JStr} (h : isCanonicalId l = true) :
    ∀ c ∈ l, c ≠ '%' := by
  intro c hc
  rcases canonical_chars h c hc with h1 | h1 | h1
  · subst h1; decide
  · subst h1; decide
  · exact idChar_ne_pct h1

theorem canonical_ne_nil {l : JStr} (h : isCanonicalId l = true) : l ≠ [] := by
  intro e
  subst e
  simp [isCanonicalId] at h

theorem decodeUriGo_no_pct :
    ∀ (l : JStr) (fuel : Nat), (∀ c ∈ l, c ≠ '%') → l.length ≤ fuel →
      decodeUriGo fuel l = some l
  | [], fuel, _, _ => by cases fuel <;> rfl
  | c :: rest, 0, _, hf => by simp at hf
  | c :: rest, fuel + 1, h, hf => by
    have hc : c ≠ '%' := h c (List.mem_cons_self c rest)
    have ih := decodeUriGo_no_pct rest fuel
      (fun d hd => h d (List.mem_cons_of_mem c hd)) (by simpa using hf)
    simp [decodeUriGo, hc, ih]

theorem decodeURIComponent_no_pct {l : JStr} (h : ∀ c ∈ l, c ≠ '%') :
    decodeURIComponent l = some l :=
  decodeUriGo_no_pct l l.length h (Nat.le_refl _)

theorem getEntry_setEntry {α : Type} (c : CacheMap α) (k : JStr) (e : CacheEntry α) :
    getEntry (setEntry c k e) k = some e := by
  simp [getEntry, setEntry, List.find?]

theorem cacheLookup_setEntry_fresh {α : Type} (c : CacheMap α) (k : JStr)
    (d : α) (ts now : Int) (h : now - ts < CACHE_TTL) :
    cacheLookup now (setEntry c k ⟨d, ts⟩) k = some d := by
  simp [cacheLookup, getEntry_setEntry, h]

theorem YB.extractChannelId_canonical_yb (L : HandleLookup) {input : JStr}
    (h : isCanonicalId input = true) :
    YB.extractChannelId L input = (some input, 0) := by
  unfold YB.extractChannelId
  rw [if_neg (canonical_ne_nil h), jsTrim_eq_self (canonical_not_ws h), if_pos h]

theorem V0.extractChannelId_canonical_v0 (L : HandleLookup) {input : JStr}
    (h : isCanonicalId input = true) :
    V0.extractChannelId L input = (.ok (some input), 0) := by
  unfold V0.extractChannelId
  rw [decodeURIComponent_no_pct (canonical_ne_pct h)]
  simp [V0.resolveDecoded, h]

theorem digit_not_ws {c : Char} (h : isDigitChar c = true) : isWs c = false := by
  simp only [isDigitChar, Bool.and_eq_true, decide_eq_true_eq] at h
  simp only [isWs, Bool.or_eq_false_iff, Bool.and_eq_false_iff, decide_eq_false_iff_not]
  omega

theorem takeWhile_eq_self_of {α : Type} (p : α → Bool) :
    ∀ l : List α, (∀ c ∈ l, p c = true) → l.takeWhile p = l
  | [], _ => rfl
  | c :: cs, h => by
    simp only [List.takeWhile_cons, h c (List.mem_cons_self c cs), if_true]
    rw [takeWhile_eq_self_of p cs (fun d hd => h d (List.mem_cons_of_mem c hd))]

theorem jsParseInt_digits {s : JStr} (hd : s.all isDigitChar = true) (hne : s ≠ []) :
    jsParseInt s = some (digitsVal s : Int) := by
  simp only [List.all_eq_true] at hd
  unfold jsParseInt
  rw [dropWhile_eq_self_of isWs s (fun c hc => digit_not_ws (hd c hc))]
  match s, hne with
  | c :: r, _ =>
    have hcd : isDigitChar c = true := hd c (List.mem_cons_self c r)
    have hcm : c ≠ '-' := by
      intro e; subst e; simp [isDigitChar] at hcd
    have hcp : c ≠ '+' := by
      intro e; subst e; simp [isDigitChar] at hcd
    have htw : (c :: r).takeWhile isDigitChar = c :: r :=
      takeWhile_eq_self_of isDigitChar (c :: r) hd
    simp only [List.head?_cons, Option.some.injEq]
    rw [if_neg (by simpa using hcm), if_neg (by simpa using hcp), htw]
    simp

theorem parseSubscribers_digits {s : JStr} (hd : s.all isDigitChar = true) :
    parseSubscribers (some s) = some (digitsVal s : Int) := by
  by_cases hne : s = []
  · subst hne
    simp [parseSubscribers, digitsVal]
  · show (if s = [] then some 0 else jsParseInt s) = _
    rw [if_neg hne, jsParseInt_digits hd hne]

/-! ## Claims -/

/-- **C1.** Any input matching the canonical-ID pattern (`UC` + 22
characters from `[0-9A-Za-z_-]`) is returned unchanged by both variants'
`extractChannelId`, with zero upstream handle-lookup calls. -/
theorem C1_canonical_id_identity (L : HandleLookup) (input : JStr)
    (h : isCanonicalId input = true) :
    YB.extractChannelId L input = (some input, 0) ∧
    V0.extractChannelId L input = (.ok (some input), 0) :=
  ⟨YB.extractChannelId_canonical_yb L h, V0.extractChannelId_canonical_v0 L h⟩

/-- Witness for C1 at the concrete canonical id of the spec's scenario 1. -/
theorem C1_witness :
    YB.extractChannelId (fun _ => .ok []) "UCX6OQ3DkcsbYNE6H8uQQuVA".toList
      = (some "UCX6OQ3DkcsbYNE6H8uQQuVA".toList, 0) ∧
    V0.extractChannelId (fun _ => .ok []) "UCX6OQ3DkcsbYNE6H8uQQuVA".toList
      = (.ok (some "UCX6OQ3DkcsbYNE6H8uQQuVA".toList), 0) :=
  C1_canonical_id_identity (fun _ => .ok []) "UCX6OQ3DkcsbYNE6H8uQQuVA".toList (by decide)

/-- **C4.** `calculateChannelAge` performs calendar-aware subtraction: when
the raw day difference is negative it borrows the day count of the calendar
month preceding "now" (via `new Date(y, m, 0)`) and decrements the month
difference; when the month difference then is negative it adds 12 and
decrements the years.  For creation 2020-03-15T00:00:00Z and now
2024-03-10T00:00:00Z this yields years=3, months=11, the day component
being borrowed from February 2024 (29 days). -/
theorem C4_calendar_subtraction :
    (∀ nowMs createdMs : Int,
      ((getDate nowMs : Int) - (getDate createdMs : Int) < 0 →
        (calendarDiff nowMs createdMs).days
          = (getDate nowMs : Int) - (getDate createdMs : Int)
            + (prevMonthDays (getFullYear nowMs) (getMonth nowMs) : Int)) ∧
      (0 ≤ (getDate nowMs : Int) - (getDate createdMs : Int) →
        (calendarDiff nowMs createdMs).days
          = (getDate nowMs : Int) - (getDate createdMs : Int)) ∧
      ((getMonth nowMs : Int) - (getMonth createdMs : Int)
          - (if (getDate nowMs : Int) - (getDate createdMs : Int) < 0 then 1 else 0) < 0 →
        (calendarDiff nowMs createdMs).years
            = getFullYear nowMs - getFullYear createdMs - 1 ∧
        (calendarDiff nowMs createdMs).months
            = (getMonth nowMs : Int) - (getMonth createdMs : Int)
              - (if (getDate nowMs : Int) - (getDate createdMs : Int) < 0 then 1 else 0)
              + 12)) ∧
    calendarDiff (utcMs 2024 3 10) (utcMs 2020 3 15) = ⟨3, 11, 24⟩ ∧
    (calculateChannelAge (utcMs 2024 3 10) (utcMs 2020 3 15)).accountAge
      = "3 years, 11 months, 24 days" ∧
    getMonth (utcMs 2024 3 10) = 2 ∧
    prevMonthDays (getFullYear (utcMs 2024 3 10)) (getMonth (utcMs 2024 3 10)) = 29 := by
  refine ⟨fun nowMs createdMs => ?_, by decide, by decide, by decide, by decide⟩
  simp only [calendarDiff]
  refine ⟨fun h => ?_, fun h => ?_, fun h => ?_⟩
  · simp only [if_pos h]
  · rw [if_neg (by omega)]
  · constructor <;> split_ifs at h ⊢ <;> omega

/-- Witness for C4: the spec's concrete scenario exercises the day-borrow
branch (raw day difference `10 - 15 < 0`, borrow from February 2024). -/
theorem C4_witness :
    (calendarDiff (utcMs 2024 3 10) (utcMs 2020 3 15)).days
      = (getDate (utcMs 2024 3 10) : Int) - (getDate (utcMs 2020 3 15) : Int)
        + (prevMonthDays (getFullYear (utcMs 2024 3 10)) (getMonth (utcMs 2024 3 10)) : Int) :=
  (C4_calendar_subtraction.1 (utcMs 2024 3 10) (utcMs 2020 3 15)).1 (by decide)

/-- **C5 counterexample.** The claim says `age_days` is the elapsed
milliseconds divided by 86,400,000 *truncated toward zero*.  The code uses
`Math.floor`, which rounds toward negative infinity: for a creation instant
1 ms in the future the code produces `-1` while truncation toward zero
(`Int.tdiv`) gives `0`. -/
theorem C5_counterexample :
    (calculateChannelAge (utcMs 2024 1 1) (utcMs 2024 1 1 + 1)).age_days = -1 ∧
    Int.tdiv (utcMs 2024 1 1 - (utcMs 2024 1 1 + 1)) msPerDay = 0 ∧
    (calculateChannelAge (utcMs 2024 1 1) (utcMs 2024 1 1 + 1)).age_days
      ≠ Int.tdiv (utcMs 2024 1 1 - (utcMs 2024 1 1 + 1)) msPerDay := by
  refine ⟨by decide, by decide, by decide⟩

/-- **C5 (amended).** `age_days` equals the elapsed milliseconds divided by
86,400,000 and rounded toward negative infinity (`Math.floor`); a creation
instant strictly in the future yields a negative value (sign-correct, no
clamping). -/
theorem C5_age_days_floor (nowMs createdMs : Int) :
    (calculateChannelAge nowMs createdMs).age_days
      = Int.fdiv (nowMs - createdMs) msPerDay ∧
    (nowMs < createdMs → (calculateChannelAge nowMs createdMs).age_days < 0) := by
  constructor
  · rfl
  · intro h
    show Int.fdiv (nowMs - createdMs) msPerDay < 0
    rw [Int.fdiv_eq_ediv _ (by decide : (0 : Int) ≤ msPerDay)]
    exact Int.ediv_neg' (by omega) (by decide)

/-- Witness for C5: a creation instant 1 ms in the future gives a negative
`age_days`. -/
theorem C5_witness :
    (calculateChannelAge (utcMs 2024 1 1) (utcMs 2024 1 1 + 1)).age_days < 0 :=
  (C5_age_days_floor (utcMs 2024 1 1) (utcMs 2024 1 1 + 1)).2 (by decide)

/-- **C6.** With a stored entry, the inline freshness check used by both
handlers yields a hit exactly when `now − storedAt < 24h`: at
`storedAt + TTL − 1` ms it hits, at `storedAt + TTL` or any later instant
it misses (no eviction on read — the entry simply stays). -/
theorem C6_cache_freshness {α : Type} (c : CacheMap α) (k : JStr)
    (e : CacheEntry α) (now : Int) (h : getEntry c k = some e) :
    (cacheLookup now c k = some e.data ↔ now - e.timestamp < CACHE_TTL) ∧
    cacheLookup (e.timestamp + CACHE_TTL - 1) c k = some e.data ∧
    (∀ t : Int, e.timestamp + CACHE_TTL ≤ t → cacheLookup t c k = none) := by
  unfold cacheLookup
  rw [h]
  refine ⟨?_, ?_, fun t ht => ?_⟩
  · by_cases hlt : now - e.timestamp < CACHE_TTL
    · simp [hlt]
    · simp [hlt]
  · simp [show e.timestamp + CACHE_TTL - 1 - e.timestamp < CACHE_TTL from by omega]
  · simp [show ¬(t - e.timestamp < CACHE_TTL) from by omega]

/-- Witness for C6 on a one-entry cache stored at instant 0: hit at
`TTL − 1`, miss at `TTL`. -/
theorem C6_witness :
    cacheLookup ((0 : Int) + CACHE_TTL - 1) [(['k'], (⟨true, 0⟩ : CacheEntry Bool))] ['k']
      = some true ∧
    cacheLookup ((0 : Int) + CACHE_TTL) [(['k'], (⟨true, 0⟩ : CacheEntry Bool))] ['k']
      = none := by
  have h := C6_cache_freshness [(['k'], (⟨true, 0⟩ : CacheEntry Bool))] ['k']
    ⟨true, 0⟩ 0 (by decide)
  exact ⟨h.2.1, h.2.2 ((0 : Int) + CACHE_TTL) (by decide)⟩

/-! Concrete fixtures shared by several witnesses below. -/

def cid : JStr := "UCX6OQ3DkcsbYNE6H8uQQuVA".toList

def sampleCh : UpstreamChannel :=
  { id := cid
    publishedAt := utcMs 2020 3 15
    title := some "MrBeast".toList
    thumbnailUrl := none
    country := some "US".toList
    description := none
    subscriberCount := some "100000".toList }

def emptyLookup : HandleLookup := fun _ => .ok []

/-- **C7.** A snapshot stored in the cache by a handler and retrieved for
the same key before TTL expiry comes back field-for-field identical to the
stored snapshot.  In `youtube-backend.js` (keyed by the resolved id) the
only difference is the `is_cached` marker (`false` when stored, `true`
when served from the cache); in part_000 (keyed by the raw input) the
stored payload is returned verbatim — there is no marker field — and the
hit leaves the cache unchanged. -/
theorem C7_cache_roundtrip :
    (∀ (env env' : YB.Env) (cache : YB.Cache) (input id : JStr)
        (ch : UpstreamChannel) (rest : List UpstreamChannel),
      input ≠ [] →
      (YB.extractChannelId env.lookup input).1 = some id →
      (YB.extractChannelId env'.lookup input).1 = some id →
      cacheLookup env.now cache id = none →
      env.meta id = .ok (ch :: rest) →
      env'.now - env.now < CACHE_TTL →
      YB.handlePost env cache (some input)
        = (.ok (YB.normalize env.now ch) false,
           setEntry cache id ⟨YB.normalize env.now ch, env.now⟩) ∧
      YB.handlePost env' (setEntry cache id ⟨YB.normalize env.now ch, env.now⟩)
          (some input)
        = (.ok (YB.normalize env.now ch) true,
           setEntry cache id ⟨YB.normalize env.now ch, env.now⟩)) ∧
    (∀ (env env' : V0.Env) (cache : V0.Cache) (input id : JStr)
        (ch : UpstreamChannel) (rest : List UpstreamChannel),
      cacheLookup env.now cache input = none →
      (V0.extractChannelId env.lookup input).1 = .ok (some id) →
      env.meta id = .ok (ch :: rest) →
      env'.now - env.now < CACHE_TTL →
      V0.handleChannelRequest env cache input
        = (.ok (V0.normalize env.now ch),
           setEntry cache input ⟨V0.normalize env.now ch, env.now⟩) ∧
      V0.handleChannelRequest env'
          (setEntry cache input ⟨V0.normalize env.now ch, env.now⟩) input
        = (.ok (V0.normalize env.now ch),
           setEntry cache input ⟨V0.normalize env.now ch, env.now⟩)) := by
  constructor
  · intro env env' cache input id ch rest h0 hres hres' hmiss hmeta hfresh
    have hhit := cacheLookup_setEntry_fresh cache id (YB.normalize env.now ch)
      env.now env'.now hfresh
    constructor
    · simp [YB.handlePost, h0, hres, hmiss, hmeta]
    · simp [YB.handlePost, h0, hres', hhit]
  · intro env env' cache input id ch rest hmiss hres hmeta hfresh
    have hhit := cacheLookup_setEntry_fresh cache input (V0.normalize env.now ch)
      env.now env'.now hfresh
    constructor
    · simp [V0.handleChannelRequest, hmiss, hres, hmeta]
    · simp [V0.handleChannelRequest, hhit]

/-- Witness for C7: concrete store-then-retrieve exchanges one millisecond
apart — `youtube-backend.js` keyed by the canonical id (marker flips to
`true`), part_000 keyed by the raw handle input `"@MrBeast"` (payload
returned verbatim). -/
theorem C7_witness :
    YB.handlePost ⟨utcMs 2024 3 10 + 1, emptyLookup, fun _ => .ok [sampleCh]⟩
        (setEntry [] cid ⟨YB.normalize (utcMs 2024 3 10) sampleCh, utcMs 2024 3 10⟩)
        (some cid)
      = (.ok (YB.normalize (utcMs 2024 3 10) sampleCh) true,
         setEntry [] cid ⟨YB.normalize (utcMs 2024 3 10) sampleCh, utcMs 2024 3 10⟩) ∧
    V0.handleChannelRequest
        ⟨utcMs 2024 3 10 + 1, fun _ => .ok [cid], fun _ => .ok [sampleCh]⟩
        (setEntry [] "@MrBeast".toList
          ⟨V0.normalize (utcMs 2024 3 10) sampleCh, utcMs 2024 3 10⟩)
        "@MrBeast".toList
      = (.ok (V0.normalize (utcMs 2024 3 10) sampleCh),
         setEntry [] "@MrBeast".toList
           ⟨V0.normalize (utcMs 2024 3 10) sampleCh, utcMs 2024 3 10⟩) :=
  ⟨(C7_cache_roundtrip.1
      ⟨utcMs 2024 3 10, emptyLookup, fun _ => .ok [sampleCh]⟩
      ⟨utcMs 2024 3 10 + 1, emptyLookup, fun _ => .ok [sampleCh]⟩
      [] cid cid sampleCh [] (by decide) (by decide) (by decide) rfl rfl
      (by decide)).2,
   (C7_cache_roundtrip.2
      ⟨utcMs 2024 3 10, fun _ => .ok [cid], fun _ => .ok [sampleCh]⟩
      ⟨utcMs 2024 3 10 + 1, fun _ => .ok [cid], fun _ => .ok [sampleCh]⟩
      [] "@MrBeast".toList cid sampleCh [] rfl rfl rfl
      (by decide)).2⟩

/-- **C8.** `verification_status` is `"Verified"` exactly when the parsed
subscriber count is at least 100,000 (inclusive threshold): a count of
exactly `100000` yields `"Verified"`, `99999` yields `"Not Verified"`.
Both variants share the computation. -/
theorem C8_verification_threshold (nowMs : Int) (ch : UpstreamChannel) :
    ((YB.normalize nowMs ch).verification_status = "Verified" ↔
      ∃ n : Int, parseSubscribers ch.subscriberCount = some n ∧ 100000 ≤ n) ∧
    (V0.normalize nowMs ch).verification_status
      = (YB.normalize nowMs ch).verification_status ∧
    (ch.subscriberCount = some "100000".toList →
      (YB.normalize nowMs ch).verification_status = "Verified") ∧
    (ch.subscriberCount = some "99999".toList →
      (YB.normalize nowMs ch).verification_status = "Not Verified") := by
  have hvs : (YB.normalize nowMs ch).verification_status
      = if subsAtLeast100k (parseSubscribers ch.subscriberCount)
        then "Verified" else "Not Verified" := rfl
  refine ⟨?_, rfl, fun h => ?_, fun h => ?_⟩
  · rw [hvs]
    cases hp : parseSubscribers ch.subscriberCount with
    | none =>
      constructor
      · intro hh
        exact absurd hh (by decide)
      · rintro ⟨n, hn, -⟩
        cases hn
    | some n =>
      by_cases hn : (100000 : Int) ≤ n
      · simp [subsAtLeast100k, hn]
      · simp only [subsAtLeast100k]
        constructor
        · intro hh
          rw [if_neg (by simpa using hn)] at hh
          exact absurd hh (by decide)
        · rintro ⟨n', hn', hge⟩
          cases hn'
          exact absurd hge hn
  · rw [hvs, h]
    decide
  · rw [hvs, h]
    decide

/-- Witness for C8: the two concrete threshold cases of the spec. -/
theorem C8_witness :
    (YB.normalize 0 sampleCh).verification_status = "Verified" ∧
    (YB.normalize 0 { sampleCh with subscriberCount := some "99999".toList
        }).verification_status = "Not Verified" :=
  ⟨(C8_verification_threshold 0 sampleCh).2.2.1 rfl,
   (C8_verification_threshold 0 _).2.2.2 rfl⟩

/-- **C9.** An absent upstream subscriber count normalizes to `0`; whenever
the upstream count is a decimal digit string (as the API contract
provides), the normalized `subscribers` field is a defined, non-negative
integer.  Both variants share the computation. -/
theorem C9_subscribers_default (nowMs : Int) (ch : UpstreamChannel) :
    (ch.subscriberCount = none → (YB.normalize nowMs ch).subscribers = some 0) ∧
    (∀ s : JStr, ch.subscriberCount = some s → s.all isDigitChar = true →
      ∃ n : Int, (YB.normalize nowMs ch).subscribers = some n ∧ 0 ≤ n) ∧
    (V0.normalize nowMs ch).subscribers = (YB.normalize nowMs ch).subscribers := by
  have hsubs : (YB.normalize nowMs ch).subscribers
      = parseSubscribers ch.subscriberCount := rfl
  refine ⟨fun h => ?_, fun s hs hd => ?_, rfl⟩
  · rw [hsubs, h]
    rfl
  · rw [hsubs, hs, parseSubscribers_digits hd]
    exact ⟨(digitsVal s : Int), rfl, Int.ofNat_nonneg _⟩

/-- Witness for C9: absent count defaults to `0`; the concrete digit-string
count `100000` is defined and non-negative. -/
theorem C9_witness :
    (YB.normalize 0 { sampleCh with subscriberCount := none }).subscribers = some 0 ∧
    ∃ n : Int, (YB.normalize 0 sampleCh).subscribers = some n ∧ 0 ≤ n :=
  ⟨(C9_subscribers_default 0 _).1 rfl,
   (C9_subscribers_default 0 sampleCh).2.1 "100000".toList rfl (by decide)⟩

/-- **C2 counterexample.** The claim fails on the code in two ways.
(1) In part_000 a transport/parse error thrown during the handle lookup is
*not* converted to NotResolvable: `extractChannelId` is awaited outside the
handler's try block, so the rejection escapes `handleChannelRequest`
unhandled instead of producing an HTTP 400.  (2) In `youtube-backend.js`
the input `"/"` is neither a canonical id nor a `/channel/` URL (so it is
handle-form in the claim's sense), yet the handle regex finds no capturable
character: zero lookup calls are made, not exactly one. -/
theorem C2_counterexample :
    V0.handleChannelRequest ⟨0, fun _ => .error (), fun _ => .ok []⟩ []
        "@MrBeast".toList
      = (.unhandledRejection, []) ∧
    YB.extractChannelId emptyLookup "/".toList = (none, 0) := by
  exact ⟨by decide, by decide⟩

/-- **C2 (amended).** For every input that reaches the handle branch of
`youtube-backend.js`'s `extractChannelId` (not empty, trimmed form neither
canonical id nor `/channel/` URL, handle regex captures), exactly one
upstream handle-lookup call is issued; a transport/parse error and an empty
result list both yield `null` (NotResolvable), which the request handler
maps to HTTP 400; a non-empty result resolves to the first item's id.  In
part_000 an *empty* result likewise yields `null` → HTTP 400 (the
transport-error case instead escapes as an unhandled rejection — see the
counterexample). -/
theorem C2_handle_lookup (L : HandleLookup) (input cap : JStr)
    (h0 : input ≠ [])
    (h1 : isCanonicalId (jsTrim input) = false)
    (h2 : findChan (jsTrim input) = none)
    (h3 : findHandle (jsTrim input) = some cap) :
    (YB.extractChannelId L input).2 = 1 ∧
    (L (stripAt cap) = .error () → (YB.extractChannelId L input).1 = none) ∧
    (L (stripAt cap) = .ok [] → (YB.extractChannelId L input).1 = none) ∧
    (∀ id ids, L (stripAt cap) = .ok (id :: ids) →
      (YB.extractChannelId L input).1 = some id) ∧
    (∀ (env : YB.Env) (cache : YB.Cache),
      (YB.extractChannelId env.lookup input).1 = none →
      YB.handlePost env cache (some input)
        = (.err 400 "Invalid channel URL or ID", cache)) ∧
    (∀ (Lv : HandleLookup) (d name : JStr),
      decodeURIComponent input = some d →
      isCanonicalId d = false → findChan d = none → customName d = some name →
      Lv name = .ok [] →
      V0.extractChannelId Lv input = (.ok none, 1)) ∧
    (∀ (env : V0.Env) (cache : V0.Cache),
      cacheLookup env.now cache input = none →
      (V0.extractChannelId env.lookup input).1 = .ok none →
      V0.handleChannelRequest env cache input
        = (.err 400 "Invalid channel URL, handle, or ID", cache)) := by
  have hyb : ∀ LL : HandleLookup, YB.extractChannelId LL input
      = (match LL (stripAt cap) with
         | .error _ => (none, 1)
         | .ok [] => (none, 1)
         | .ok (id :: _) => (some id, 1)) := by
    intro LL
    simp [YB.extractChannelId, h0, h1, h2, h3]
  refine ⟨?_, fun he => ?_, fun he => ?_, fun id ids he => ?_,
    fun env cache hnone => ?_, fun Lv d name hdec hd1 hd2 hd3 hLv => ?_,
    fun env cache hmiss hext => ?_⟩
  · rw [hyb L]
    cases hL : L (stripAt cap) with
    | error e => rfl
    | ok ids => cases ids <;> rfl
  · rw [hyb L, he]
  · rw [hyb L, he]
  · rw [hyb L, he]
  · simp [YB.handlePost, h0, hnone]
  · simp [V0.extractChannelId, V0.resolveDecoded, hdec, hd1, hd2, hd3, hLv]
  · simp [V0.handleChannelRequest, hmiss, hext]

/-- Witness for C2 at the handle input `"@MrBeast"` with an
empty-result lookup oracle. -/
theorem C2_witness :
    (YB.extractChannelId emptyLookup "@MrBeast".toList).2 = 1 ∧
    (YB.extractChannelId emptyLookup "@MrBeast".toList).1 = none ∧
    V0.extractChannelId emptyLookup "@MrBeast".toList = (.ok none, 1) := by
  have h := C2_handle_lookup emptyLookup "@MrBeast".toList "MrBeast".toList
    (by decide) (by decide) (by decide) (by decide)
  exact ⟨h.1, h.2.2.1 rfl,
    h.2.2.2.2.2.1 emptyLookup "@MrBeast".toList "MrBeast".toList
      (by decide) (by decide) (by decide) (by decide) rfl⟩

/-- **C3 counterexample.** `youtube-backend.js` performs *no* percent
decoding: the malformed percent-encoding `"%"` is not treated as a
resolution failure — the raw `%` is captured by the handle regex and an
upstream lookup is issued, which can even resolve to a channel id.
(`decodeURIComponent` would throw on this input, as the first conjunct
records.) -/
theorem C3_counterexample :
    decodeURIComponent "%".toList = none ∧
    YB.extractChannelId (fun _ => .ok [cid]) "%".toList = (some cid, 1) :=
  ⟨by decide, by decide⟩

/-- **C3 (amended).** In part_000 the raw input is percent-decoded before
any pattern matching (`extractChannelId` = decode, then match the decoded
input), and a malformed percent-encoding yields `null` with zero network
calls, which the handler maps to HTTP 400 — never a crash.
`youtube-backend.js` does not percent-decode at all; its patterns run on
the raw (trimmed) input (see the counterexample). -/
theorem C3_decode_before_match (L : HandleLookup) (input : JStr) :
    (decodeURIComponent input = none →
      V0.extractChannelId L input = (.ok none, 0)) ∧
    (∀ d, decodeURIComponent input = some d →
      V0.extractChannelId L input = V0.resolveDecoded L d) ∧
    (∀ (env : V0.Env) (cache : V0.Cache),
      cacheLookup env.now cache input = none →
      decodeURIComponent input = none →
      V0.handleChannelRequest env cache input
        = (.err 400 "Invalid channel URL, handle, or ID", cache)) := by
  refine ⟨fun h => ?_, fun d h => ?_, fun env cache hmiss h => ?_⟩
  · simp [V0.extractChannelId, h]
  · simp [V0.extractChannelId, h]
  · have hx : (V0.extractChannelId env.lookup input).1 = .ok none := by
      simp [V0.extractChannelId, h]
    simp [V0.handleChannelRequest, hmiss, hx]

/-- Witness for C3 at the malformed input `"%"`: part_000 resolves it to
`null` with zero lookups and responds 400. -/
theorem C3_witness :
    V0.extractChannelId emptyLookup "%".toList = (.ok none, 0) ∧
    V0.handleChannelRequest ⟨0, emptyLookup, fun _ => .ok []⟩ [] "%".toList
      = (.err 400 "Invalid channel URL, handle, or ID", []) := by
  have h := C3_decode_before_match emptyLookup "%".toList
  exact ⟨h.1 (by decide),
    h.2.2 ⟨0, emptyLookup, fun _ => .ok []⟩ [] rfl (by decide)⟩

/-- Case analysis of the `youtube-backend.js` POST handler: either it left
the cache untouched (responding with an error or a cache hit), or it
responded with a freshly normalized snapshot and wrote exactly that
snapshot. -/
theorem YB.handlePost_spec (env : YB.Env) (cache : YB.Cache) (body : Option JStr) :
    ((YB.handlePost env cache body).2 = cache ∧
      ((∃ s m, (YB.handlePost env cache body).1 = .err s m) ∨
       (∃ d, (YB.handlePost env cache body).1 = .ok d true))) ∨
    (∃ k ch rest, env.meta k = .ok (ch :: rest) ∧
      (YB.handlePost env cache body).1 = .ok (YB.normalize env.now ch) false ∧
      (YB.handlePost env cache body).2
        = setEntry cache k ⟨YB.normalize env.now ch, env.now⟩) := by
  rcases body with _ | input
  · exact Or.inl ⟨rfl, Or.inl ⟨400, "Channel URL or ID is required", rfl⟩⟩
  · by_cases h0 : input = []
    · subst h0
      exact Or.inl ⟨rfl, Or.inl ⟨400, "Channel URL or ID is required", rfl⟩⟩
    · rcases hx : (YB.extractChannelId env.lookup input).1 with _ | channelId
      · exact Or.inl ⟨by simp [YB.handlePost, h0, hx],
          Or.inl ⟨400, "Invalid channel URL or ID", by simp [YB.handlePost, h0, hx]⟩⟩
      · rcases hc : cacheLookup env.now cache channelId with _ | data
        · rcases hm : env.meta channelId with _ | status | items
          · exact Or.inl ⟨by simp [YB.handlePost, h0, hx, hc, hm],
              Or.inl ⟨500, "Could not fetch channel data",
                by simp [YB.handlePost, h0, hx, hc, hm]⟩⟩
          · exact Or.inl ⟨by simp [YB.handlePost, h0, hx, hc, hm],
              Or.inl ⟨status, "Failed to fetch channel data",
                by simp [YB.handlePost, h0, hx, hc, hm]⟩⟩
          · rcases items with _ | ⟨ch, rest⟩
            · exact Or.inl ⟨by simp [YB.handlePost, h0, hx, hc, hm],
                Or.inl ⟨404, "Channel not found",
                  by simp [YB.handlePost, h0, hx, hc, hm]⟩⟩
            · exact Or.inr ⟨channelId, ch, rest, hm,
                by simp [YB.handlePost, h0, hx, hc, hm],
                by simp [YB.handlePost, h0, hx, hc, hm]⟩
        · exact Or.inl ⟨by simp [YB.handlePost, h0, hx, hc],
            Or.inr ⟨data, by simp [YB.handlePost, h0, hx, hc]⟩⟩

/-- Case analysis of part_000's `handleChannelRequest`, analogous to
`YB.handlePost_spec` (with the unhandled-rejection outcome and the raw
input as cache key). -/
theorem V0.handleChannelRequest_spec (env : V0.Env) (cache : V0.Cache) (input : JStr) :
    ((V0.handleChannelRequest env cache input).2 = cache ∧
      ((V0.handleChannelRequest env cache input).1 = .unhandledRejection ∨
       (∃ s m, (V0.handleChannelRequest env cache input).1 = .err s m) ∨
       (∃ d, (V0.handleChannelRequest env cache input).1 = .ok d ∧
         cacheLookup env.now cache input = some d))) ∨
    (∃ id ch rest,
      (V0.extractChannelId env.lookup input).1 = .ok (some id) ∧
      env.meta id = .ok (ch :: rest) ∧
      (V0.handleChannelRequest env cache input).1 = .ok (V0.normalize env.now ch) ∧
      (V0.handleChannelRequest env cache input).2
        = setEntry cache input ⟨V0.normalize env.now ch, env.now⟩) := by
  rcases hc : cacheLookup env.now cache input with _ | data
  · rcases hx : (V0.extractChannelId env.lookup input).1 with e | o
    · exact Or.inl ⟨by simp [V0.handleChannelRequest, hc, hx],
        Or.inl (by simp [V0.handleChannelRequest, hc, hx])⟩
    · rcases o with _ | channelId
      · exact Or.inl ⟨by simp [V0.handleChannelRequest, hc, hx],
          Or.inr (Or.inl ⟨400, "Invalid channel URL, handle, or ID",
            by simp [V0.handleChannelRequest, hc, hx]⟩)⟩
      · rcases hm : env.meta channelId with _ | status | items
        · exact Or.inl ⟨by simp [V0.handleChannelRequest, hc, hx, hm],
            Or.inr (Or.inl ⟨500, "Could not fetch channel data",
              by simp [V0.handleChannelRequest, hc, hx, hm]⟩)⟩
        · exact Or.inl ⟨by simp [V0.handleChannelRequest, hc, hx, hm],
            Or.inr (Or.inl ⟨status, s!"Failed to fetch channel data: HTTP {status}",
              by simp [V0.handleChannelRequest, hc, hx, hm]⟩)⟩
        · rcases items with _ | ⟨ch, rest⟩
          · exact Or.inl ⟨by simp [V0.handleChannelRequest, hc, hx, hm],
              Or.inr (Or.inl ⟨404, "Channel not found",
                by simp [V0.handleChannelRequest, hc, hx, hm]⟩)⟩
          · exact Or.inr ⟨channelId, ch, rest, rfl, hm,
              by simp [V0.handleChannelRequest, hc, hx, hm],
              by simp [V0.handleChannelRequest, hc, hx, hm]⟩
  · exact Or.inl ⟨by simp [V0.handleChannelRequest, hc],
      Or.inr (Or.inr ⟨data, by simp [V0.handleChannelRequest, hc], rfl⟩)⟩

/-- **C10.** On every error path (missing input, unresolvable identifier,
non-success upstream status, empty upstream result, transport exception —
and, in part_000, the escaping rejection) the cache is left unchanged; the
cache changes only together with a success response carrying a freshly
normalized snapshot of a successful upstream fetch, and the entry written
is exactly that snapshot. -/
theorem C10_no_write_on_error :
    (∀ (env : YB.Env) (cache : YB.Cache) (body : Option JStr),
      (∃ s m, (YB.handlePost env cache body).1 = .err s m) →
      (YB.handlePost env cache body).2 = cache) ∧
    (∀ (env : YB.Env) (cache : YB.Cache) (body : Option JStr),
      (YB.handlePost env cache body).2 ≠ cache →
      ∃ k ch rest, env.meta k = .ok (ch :: rest) ∧
        (YB.handlePost env cache body).1 = .ok (YB.normalize env.now ch) false ∧
        (YB.handlePost env cache body).2
          = setEntry cache k ⟨YB.normalize env.now ch, env.now⟩) ∧
    (∀ (env : V0.Env) (cache : V0.Cache) (input : JStr),
      ((V0.handleChannelRequest env cache input).1 = .unhandledRejection ∨
        ∃ s m, (V0.handleChannelRequest env cache input).1 = .err s m) →
      (V0.handleChannelRequest env cache input).2 = cache) ∧
    (∀ (env : V0.Env) (cache : V0.Cache) (input : JStr),
      (V0.handleChannelRequest env cache input).2 ≠ cache →
      ∃ id ch rest,
        (V0.extractChannelId env.lookup input).1 = .ok (some id) ∧
        env.meta id = .ok (ch :: rest) ∧
        (V0.handleChannelRequest env cache input).1 = .ok (V0.normalize env.now ch) ∧
        (V0.handleChannelRequest env cache input).2
          = setEntry cache input ⟨V0.normalize env.now ch, env.now⟩) := by
  refine ⟨fun env cache body he => ?_, fun env cache body hne => ?_,
    fun env cache input he => ?_, fun env cache input hne => ?_⟩
  · rcases YB.handlePost_spec env cache body with ⟨h2, -⟩ | ⟨k, ch, rest, -, h1, -⟩
    · exact h2
    · obtain ⟨s, m, he⟩ := he
      rw [h1] at he
      exact YB.Resp.noConfusion he
  · rcases YB.handlePost_spec env cache body with ⟨h2, -⟩ | h
    · exact absurd h2 hne
    · exact h
  · rcases V0.handleChannelRequest_spec env cache input
      with ⟨h2, -⟩ | ⟨id, ch, rest, -, -, h1, -⟩
    · exact h2
    · rcases he with he | ⟨s, m, he⟩ <;> rw [h1] at he <;> exact V0.Resp.noConfusion he
  · rcases V0.handleChannelRequest_spec env cache input with ⟨h2, -⟩ | h
    · exact absurd h2 hne
    · exact h

/-- Witness for C10: a missing body (youtube-backend.js) and an escaping
rejection (part_000) both leave an empty cache empty. -/
theorem C10_witness :
    (YB.handlePost ⟨0, emptyLookup, fun _ => .ok []⟩ [] none).2 = [] ∧
    (V0.handleChannelRequest ⟨0, fun _ => .error (), fun _ => .ok []⟩ []
      "@MrBeast".toList).2 = [] :=
  ⟨C10_no_write_on_error.1 ⟨0, emptyLookup, fun _ => .ok []⟩ [] none
      ⟨400, "Channel URL or ID is required", rfl⟩,
   C10_no_write_on_error.2.2.1 ⟨0, fun _ => .error (), fun _ => .ok []⟩ []
      "@MrBeast".toList (Or.inl (by decide))⟩
